import Mathlib

/-!
Verification of the qr-builder compositing/validation core.

Shallow embedding of `src/qr_builder/core.py`, `src/qr_builder/api.py` and
`src/qr_builder/cli.py`.  Pure orchestration logic (validation, position
arithmetic, naming, error-to-status mapping, batch iteration) is translated
directly; the external collaborators (the `qrcode` codec, PIL pixel
operations, `amzqr`) are opaque per the spec, so a codec-produced image is a
parameter of the functions that consume one, and PIL images are modelled by
their width, height and mode, which is all the orchestration layer reads.
Python exceptions become an `Except` error type; Python floats that carry
exact decimal literals are modelled by rationals; Python ints by `Int` with
floor division written `Int.fdiv`, matching the `//` operator.
-/

namespace QRBuilder

/-- Model of the Python exceptions the repository raises and catches.
`valueError` is what the spec taxonomy calls `InvalidInput` (the code raises
`ValueError` for every input-validation failure); `fileNotFoundError` models
`FileNotFoundError`; `otherError` stands for any other `Exception` (codec
failure, I/O failure, decode failure). -/
inductive PyError where
  | valueError (msg : String)
  | fileNotFoundError (msg : String)
  | otherError (msg : String)
deriving DecidableEq, Repr

/-- True exactly for errors that Python `except ValueError` clauses catch. -/
def isValueError : PyError → Bool
  | .valueError _ => true
  | _ => false

/-- Decidable equality of outcomes, for evaluating the model on concrete
inputs. -/
instance {ε α : Type} [DecidableEq ε] [DecidableEq α] : DecidableEq (Except ε α) :=
  fun a b =>
    match a, b with
    | .ok x, .ok y => decidable_of_iff (x = y) (by simp)
    | .error e, .error f => decidable_of_iff (e = f) (by simp)
    | .ok _, .error _ => .isFalse fun h => Except.noConfusion h
    | .error _, .ok _ => .isFalse fun h => Except.noConfusion h

/-- Whether a Python computation completed without raising. -/
def isOk {ε α : Type} : Except ε α → Bool
  | .ok _ => true
  | .error _ => false

/-- Model of a PIL image: the orchestration layer only ever reads the
dimensions (`img.size`) and sets the mode (`convert`) or the dimensions
(`resize`), so that is the state we track. -/
structure PILImage where
  width : Int
  height : Int
  mode : String
deriving DecidableEq, Repr

/-- Model of `PIL.Image.convert`: changes the pixel mode, keeps dimensions. -/
def PILImage.convert (img : PILImage) (mode : String) : PILImage :=
  { img with mode := mode }

/-- Model of `PIL.Image.resize`: sets the dimensions, keeps the mode. -/
def PILImage.resize (img : PILImage) (size : Int × Int) : PILImage :=
  { width := size.1, height := size.2, mode := img.mode }

/-- `core.py`: `MAX_DATA_LENGTH = 4296`. -/
def MAX_DATA_LENGTH : Nat := 4296

/-- `core.py`: `MAX_QR_SIZE = 4000`. -/
def MAX_QR_SIZE : Int := 4000

/-- `core.py`: `MIN_QR_SIZE = 21`. -/
def MIN_QR_SIZE : Int := 21

/-- `core.py`: `VALID_POSITIONS` tuple. -/
def VALID_POSITIONS : List String :=
  ["center", "top-left", "top-right", "bottom-left", "bottom-right"]

/-- Model of Python `str.isspace` for a single character: the whitespace
set Python uses for `str.strip()` with no argument (ASCII whitespace, the
information separators, and the Unicode space categories). -/
def pyIsSpace (c : Char) : Bool :=
  c ∈ ['\u0020', '\u0009', '\u000a', '\u000b', '\u000c', '\u000d',
       '\u001c', '\u001d', '\u001e', '\u001f', '\u0085', '\u00a0',
       '\u1680', '\u2000', '\u2001', '\u2002', '\u2003', '\u2004',
       '\u2005', '\u2006', '\u2007', '\u2008', '\u2009', '\u200a',
       '\u2028', '\u2029', '\u202f', '\u205f', '\u3000']

/-- Model of Python `str.strip()` with no argument: drop leading and
trailing whitespace characters. -/
def pyStrip (s : String) : String :=
  String.mk (((s.data.dropWhile pyIsSpace).reverse.dropWhile pyIsSpace).reverse)

/-- Model of Python `str.lower()`: character-wise lowercasing (the model
agrees with Python on ASCII, which covers every anchor name). -/
def pyLower (s : String) : String :=
  String.mk (s.data.map Char.toLower)

/-- Model of Python `int(x)` on a (here rational-modelled) float:
truncation toward zero. -/
def pyInt (q : ℚ) : Int :=
  if 0 ≤ q then ⌊q⌋ else ⌈q⌉

/-- `core.py` `validate_data`: rejects data that is empty or
whitespace-only (`not data or not data.strip()`) or longer than
`MAX_DATA_LENGTH`. -/
def validate_data (data : String) : Except PyError Unit :=
  if data.data.isEmpty || (pyStrip data).data.isEmpty then
    .error (.valueError "Data cannot be empty.")
  else if data.length > MAX_DATA_LENGTH then
    .error (.valueError "Data exceeds maximum length of 4296 characters.")
  else
    .ok ()

/-- `core.py` `validate_size`: rejects sizes outside
`MIN_QR_SIZE <= size <= MAX_QR_SIZE`. -/
def validate_size (size : Int) : Except PyError Unit :=
  if MIN_QR_SIZE ≤ size ∧ size ≤ MAX_QR_SIZE then
    .ok ()
  else
    .error (.valueError "Size must be between 21 and 4000 pixels.")

/-- The message of the `ValueError` that `calculate_position` raises for an
unsupported anchor (apostrophes and interpolation of the source message
elided; only the identity of the exception matters to the claims). -/
def unsupportedPositionMsg : String :=
  "Unsupported position. Use one of: center, top-left, top-right, bottom-left, bottom-right."

/-- `core.py` `calculate_position`: lowercases the anchor
(`position = position.lower()`), then returns the closed-form coordinate
for each of the five anchors, `//` translated as `Int.fdiv`; any other
anchor raises `ValueError`. -/
def calculate_position (bg_w bg_h qr_size : Int) (position : String) (margin : Int) :
    Except PyError (Int × Int) :=
  if pyLower position = "center" then
    .ok ((bg_w - qr_size).fdiv 2, (bg_h - qr_size).fdiv 2)
  else if pyLower position = "bottom-right" then
    .ok (bg_w - qr_size - margin, bg_h - qr_size - margin)
  else if pyLower position = "bottom-left" then
    .ok (margin, bg_h - qr_size - margin)
  else if pyLower position = "top-right" then
    .ok (bg_w - qr_size - margin, margin)
  else if pyLower position = "top-left" then
    .ok (margin, margin)
  else
    .error (.valueError unsupportedPositionMsg)

/-- `core.py` `generate_qr`: validates data and size, obtains the codec
image (external `qrcode` collaborator, here the opaque parameter
`codecImg`), converts it to RGBA and resizes it to
`(qr_size, qr_size)`.  Colors and border only parameterize the opaque
codec, so they are absorbed into `codecImg`. -/
def generate_qr (codecImg : PILImage) (data : String) (qr_size : Int) :
    Except PyError PILImage :=
  match validate_data data with
  | .error e => .error e
  | .ok _ =>
    match validate_size qr_size with
    | .error e => .error e
    | .ok _ => .ok ((codecImg.convert "RGBA").resize (qr_size, qr_size))

/-- The message of the `ValueError` raised by `generate_qr_with_logo` when
`logo_scale` is out of range. -/
def logoScaleMsg : String :=
  "logo_scale should be between 0.1 and 0.4 for reliable scanning."

/-- `core.py` `generate_qr_with_logo`: checks the logo file exists
(`FileNotFoundError` otherwise), checks `0.1 <= logo_scale <= 0.4`
(`ValueError` otherwise), generates the QR, then resizes and pastes the logo
and the backing box, which leave the QR image dimensions unchanged.
`logoExists` models the `logo_path.exists()` test; `codecImg` is the opaque
codec output as in `generate_qr`. -/
def generate_qr_with_logo (logoExists : Bool) (codecImg : PILImage)
    (data : String) (size : Int) (logo_scale : ℚ) : Except PyError PILImage :=
  if !logoExists then
    .error (.fileNotFoundError "Logo image not found")
  else if (0.1 : ℚ) ≤ logo_scale ∧ logo_scale ≤ (0.4 : ℚ) then
    match generate_qr codecImg data size with
    | .error e => .error e
    | .ok qr_img => .ok qr_img
  else
    .error (.valueError logoScaleMsg)

/-- What the embed pipeline pasted and produced: the output image, the
rendered QR that was pasted, and the top-left paste coordinate. -/
structure EmbedResult where
  output : PILImage
  qrImg : PILImage
  pasteX : Int
  pasteY : Int
deriving DecidableEq, Repr

/-- The embed pipeline shared by `api.py` `embed_qr` and `core.py`
`embed_qr_in_image`: convert the background to RGBA, read its size, check
`0 < scale <= 1` (`ValueError` otherwise), compute
`qr_size = int(bg_w * scale)`, render the QR at that size, compute the
paste position, and paste (`bg.paste` keeps the background dimensions,
clipping out-of-bounds pixels silently). -/
def embed_qr (codecImg : PILImage) (background : PILImage) (data : String)
    (scale : ℚ) (position : String) (margin : Int) : Except PyError EmbedResult :=
  if 0 < scale ∧ scale ≤ 1 then
    match generate_qr codecImg data
        (pyInt (((background.convert "RGBA").width : ℚ) * scale)) with
    | .error e => .error e
    | .ok qr_img =>
      match calculate_position (background.convert "RGBA").width
          (background.convert "RGBA").height
          (pyInt (((background.convert "RGBA").width : ℚ) * scale)) position margin with
      | .error e => .error e
      | .ok (x, y) => .ok ⟨background.convert "RGBA", qr_img, x, y⟩
  else
    .error (.valueError "scale must be between 0 and 1.")

/-- The HTTP endpoints of `api.py` that can fail. -/
inductive Endpoint where
  | qr
  | qrLogo
  | qrText
  | qrArtistic
  | qrQart
  | embed
  | batchEmbed
  | batchArtistic
deriving DecidableEq, Repr

/-- The HTTP status each handler of `api.py` produces when the computation
inside its `try` block raises the given exception, read off the `except`
clauses of each handler: `create_qr` catches every `Exception` with 400;
`create_qr_with_logo`, `create_qr_with_text_endpoint`, `embed_qr` and
`batch_embed_qr` catch `ValueError` with 400 and every other `Exception`
with 500; `create_artistic_qr`, `create_qart` and `batch_artistic_qr` catch
every `Exception` with 500. -/
def endpointStatus : Endpoint → PyError → Nat
  | .qr, _ => 400
  | .qrLogo, .valueError _ => 400
  | .qrLogo, _ => 500
  | .qrText, .valueError _ => 400
  | .qrText, _ => 500
  | .qrArtistic, _ => 500
  | .qrQart, _ => 500
  | .embed, .valueError _ => 400
  | .embed, _ => 500
  | .batchEmbed, .valueError _ => 400
  | .batchEmbed, _ => 500
  | .batchArtistic, _ => 500

/-- `api.py` `batch_embed_qr` output naming: default the filename to
`image.png` when falsy, then if the name contains a dot take everything
before the last dot (`name.rsplit(".", 1)[0]`) and append `_qr.png`,
otherwise append `_qr.png` to the whole name. -/
def api_out_name (filename : String) : String :=
  let name := if filename.data.isEmpty then "image.png" else filename
  if name.data.contains '.' then
    String.mk ((name.data.reverse.dropWhile (fun c => c ≠ '.')).drop 1 |>.reverse)
      ++ "_qr.png"
  else
    name ++ "_qr.png"

/-- Index of the last dot of a character list, if any. -/
def lastDotIdx (l : List Char) : Option Nat :=
  match l.reverse.findIdx? (fun c => c = '.') with
  | none => none
  | some j => some (l.length - 1 - j)

/-- Model of `os.path.splitext` on a plain file name (no directory
separators, as produced by `basename`): split at the last dot, unless every
character before that dot is itself a dot (leading-dot names such as
`.bashrc` keep their dot in the root). -/
def splitext (name : String) : String × String :=
  match lastDotIdx name.data with
  | none => (name, "")
  | some i =>
    if (name.data.take i).all (fun c => c = '.') then
      (name, "")
    else
      (String.mk (name.data.take i), String.mk (name.data.drop i))

/-- `cli.py` batch-embed output naming:
`stem, ext = splitext(name); out_name = f"{stem}_qr{ext or .png}"` —
the `_qr` suffix goes before the original extension, and the extension
defaults to `.png` only when the source had none. -/
def cli_out_name (name : String) : String :=
  let se := splitext name
  se.1 ++ "_qr" ++ (if se.2.data.isEmpty then ".png" else se.2)

/-- One item of `api.py` `batch_embed_qr`: open the background from the
uploaded bytes, convert to RGBA, check the scale, render the QR at
`int(bg_w * scale)`, compute the position, paste, and name the archive
entry from the upload filename.  A `(filename, image)` pair stands for one
uploaded file. -/
def process_item (codecImg : PILImage) (data : String) (scale : ℚ)
    (position : String) (margin : Int) (file : String × PILImage) :
    Except PyError (String × PILImage) :=
  if 0 < scale ∧ scale ≤ 1 then
    match generate_qr codecImg data
        (pyInt (((file.2.convert "RGBA").width : ℚ) * scale)) with
    | .error e => .error e
    | .ok _ =>
      match calculate_position (file.2.convert "RGBA").width
          (file.2.convert "RGBA").height
          (pyInt (((file.2.convert "RGBA").width : ℚ) * scale)) position margin with
      | .error e => .error e
      | .ok _ => .ok (api_out_name file.1, file.2.convert "RGBA")
  else
    .error (.valueError "scale must be between 0 and 1.")

/-- `api.py` `batch_embed_qr`: the `for file in backgrounds` loop runs
inside one `try` block, writing one archive entry per file in iteration
order; the first exception aborts the loop, the partially written archive
buffer is discarded, and an error response is returned instead. -/
def batch_embed_qr (codecImg : PILImage) (data : String) (scale : ℚ)
    (position : String) (margin : Int) :
    List (String × PILImage) → Except PyError (List (String × PILImage))
  | [] => .ok []
  | f :: fs =>
    match process_item codecImg data scale position margin f with
    | .error e => .error e
    | .ok entry =>
      match batch_embed_qr codecImg data scale position margin fs with
      | .error e => .error e
      | .ok rest => .ok (entry :: rest)

/-- The module-level names `core.py` defines (its functions, constants and
module logger), read off the source top to bottom. -/
def core_defined_names : List String :=
  ["logger", "MAX_DATA_LENGTH", "MAX_QR_SIZE", "MIN_QR_SIZE", "VALID_POSITIONS",
   "validate_data", "validate_size", "generate_qr", "calculate_position",
   "embed_qr_in_image", "generate_qr_only", "generate_artistic_qr",
   "generate_qr_with_logo"]

/-- The names `api.py` imports from `.core` at module load time
(`api.py` lines 36-45). -/
def api_core_imports : List String :=
  ["generate_qr", "calculate_position", "generate_qr_with_logo",
   "generate_qr_with_text", "generate_artistic_qr", "generate_qart",
   "QRStyle", "ARTISTIC_PRESETS"]

/-! Theorems -/

/-- A string strips to empty exactly when every character is whitespace. -/
theorem pyStrip_empty_iff (s : String) :
    (pyStrip s).data = [] ↔ ∀ c ∈ s.data, pyIsSpace c := by
  show ((s.data.dropWhile pyIsSpace).reverse.dropWhile pyIsSpace).reverse = [] ↔ _
  constructor
  · intro h c hc
    rw [List.reverse_eq_nil_iff] at h
    have h2 := List.dropWhile_eq_nil_iff.mp h
    have h4 : s.data.takeWhile pyIsSpace ++ s.data.dropWhile pyIsSpace = s.data :=
      List.takeWhile_append_dropWhile pyIsSpace s.data
    rw [← h4] at hc
    rcases List.mem_append.mp hc with h5 | h5
    · exact List.mem_takeWhile_imp h5
    · exact h2 c (List.mem_reverse.mpr h5)
  · intro h
    rw [List.dropWhile_eq_nil_iff.mpr h]
    rfl

/-- Claim C1: for all integer background dimensions, QR size and margin,
`calculate_position` returns exactly the closed-form coordinates for each of
the five valid anchors — center by floor division, the four corners by the
margin arithmetic — without clamping and without error, even when the
result is negative or exceeds the background bounds. -/
theorem calculate_position_closed_form (bg_w bg_h qr_size margin : Int) :
    calculate_position bg_w bg_h qr_size "center" margin =
      .ok ((bg_w - qr_size).fdiv 2, (bg_h - qr_size).fdiv 2)
    ∧ calculate_position bg_w bg_h qr_size "top-left" margin = .ok (margin, margin)
    ∧ calculate_position bg_w bg_h qr_size "top-right" margin =
      .ok (bg_w - qr_size - margin, margin)
    ∧ calculate_position bg_w bg_h qr_size "bottom-left" margin =
      .ok (margin, bg_h - qr_size - margin)
    ∧ calculate_position bg_w bg_h qr_size "bottom-right" margin =
      .ok (bg_w - qr_size - margin, bg_h - qr_size - margin) :=
  ⟨rfl, rfl, rfl, rfl, rfl⟩

/-- Claim C2: `validate_data` fails exactly when the data is empty,
whitespace-only, or longer than 4296 characters, `validate_size` fails
exactly when the size is outside `[21, 4000]`, both succeed otherwise, and
every failure is a `ValueError` (the `InvalidInput` of the spec taxonomy);
both are pure Lean functions, hence total and side-effect free. -/
theorem validate_data_size_total (data : String) (size : Int) :
    (isOk (validate_data data) = false ↔
      (data = "" ∨ (∀ c ∈ data.data, pyIsSpace c) ∨ MAX_DATA_LENGTH < data.length))
    ∧ (validate_data data = .ok () ∨
        ∃ msg, validate_data data = .error (.valueError msg))
    ∧ (isOk (validate_size size) = false ↔ (size < MIN_QR_SIZE ∨ MAX_QR_SIZE < size))
    ∧ (validate_size size = .ok () ∨
        ∃ msg, validate_size size = .error (.valueError msg)) := by
  refine ⟨?_, ?_, ?_, ?_⟩
  · unfold validate_data
    split_ifs with h1 h2
    · simp only [isOk, true_iff]
      rcases Bool.or_eq_true_iff.mp h1 with h | h
      · left
        cases data with
        | mk l => cases l with
          | nil => rfl
          | cons a as => simp [List.isEmpty] at h
      · right; left
        exact (pyStrip_empty_iff data).mp (List.isEmpty_iff.mp h)
    · simp only [isOk, true_iff]
      right; right
      exact h2
    · apply iff_of_false
      · simp [isOk]
      · rintro (hd | hall | hlen)
        · apply h1
          rw [hd]
          rfl
        · apply h1
          have hnil : (pyStrip data).data = [] := (pyStrip_empty_iff data).mpr hall
          simp [List.isEmpty_iff, hnil]
        · exact h2 hlen
  · unfold validate_data
    split_ifs
    · exact Or.inr ⟨_, rfl⟩
    · exact Or.inr ⟨_, rfl⟩
    · exact Or.inl rfl
  · unfold validate_size
    split_ifs with h1
    · apply iff_of_false
      · simp [isOk]
      · rintro (h | h)
        · exact absurd h1.1 (not_le_of_lt h)
        · exact absurd h1.2 (not_le_of_lt h)
    · simp only [isOk, true_iff]
      rcases not_and_or.mp h1 with h | h
      · exact Or.inl (lt_of_not_ge h)
      · exact Or.inr (lt_of_not_ge h)
  · unfold validate_size
    split_ifs
    · exact Or.inl rfl
    · exact Or.inr ⟨_, rfl⟩

/-- Claim C3, counterexample: the `/qr` handler catches every `Exception`
with status 400, so a non-validation failure during `/qr` generation yields
400, not the 500 the claim requires. -/
theorem qr_endpoint_unexpected_failure_is_400 :
    endpointStatus Endpoint.qr (PyError.otherError "codec failure") = 400 ∧
      endpointStatus Endpoint.qr (PyError.otherError "codec failure") ≠ 500 :=
  ⟨rfl, by decide⟩

/-- Claim C3, amended: `/qr` maps every failure to 400; `/qr/logo`,
`/qr/text`, `/embed` and `/batch/embed` map `ValueError` (`InvalidInput`)
to 400 and any other failure to 500; `/qr/artistic`, `/qr/qart` and
`/batch/artistic` map every failure, `InvalidInput` included, to 500. -/
theorem endpoint_error_status_mapping (e : PyError) :
    endpointStatus .qr e = 400
    ∧ endpointStatus .qrLogo e = (if isValueError e then 400 else 500)
    ∧ endpointStatus .qrText e = (if isValueError e then 400 else 500)
    ∧ endpointStatus .embed e = (if isValueError e then 400 else 500)
    ∧ endpointStatus .batchEmbed e = (if isValueError e then 400 else 500)
    ∧ endpointStatus .qrArtistic e = 500
    ∧ endpointStatus .qrQart e = 500
    ∧ endpointStatus .batchArtistic e = 500 := by
  cases e <;> simp [endpointStatus, isValueError]

/-- Claim C4, counterexample: the CLI batch-embed branch names the output
for source `photo.jpg` as `photo_qr.jpg`, not `photo_qr.png`. -/
theorem cli_batch_naming_counterexample :
    cli_out_name "photo.jpg" = "photo_qr.jpg" ∧ cli_out_name "photo.jpg" ≠ "photo_qr.png" := by
  exact ⟨by decide, by decide⟩

/-- Claim C4, amended: the HTTP `/batch/embed` archive entry for source
`photo.jpg` is `photo_qr.png` and for extensionless `photo` is
`photo_qr.png` (always `.png`); the CLI batch-embed output keeps the source
extension when present (`photo.jpg` gives `photo_qr.jpg`) and defaults to
`.png` only when the source has none (`photo` gives `photo_qr.png`). -/
theorem batch_naming_amended :
    api_out_name "photo.jpg" = "photo_qr.png"
    ∧ api_out_name "photo" = "photo_qr.png"
    ∧ cli_out_name "photo.jpg" = "photo_qr.jpg"
    ∧ cli_out_name "photo" = "photo_qr.png" := by
  refine ⟨by decide, by decide, by decide, by decide⟩

/-- Claim C10: `api.py` imports `generate_qr_with_text` (and also
`generate_qart`, `QRStyle`, `ARTISTIC_PRESETS`) from `core`, but `core.py`
defines no such module-level names, so the claim that every imported name
exists is false on the code: loading `qr_builder.api` raises `ImportError`
before any route, `/health` and `/qr` included, can be served. -/
theorem api_core_import_missing :
    "generate_qr_with_text" ∈ api_core_imports
    ∧ "generate_qr_with_text" ∉ core_defined_names
    ∧ "generate_qart" ∉ core_defined_names
    ∧ "QRStyle" ∉ core_defined_names
    ∧ "ARTISTIC_PRESETS" ∉ core_defined_names
    ∧ ¬(∀ n ∈ api_core_imports, n ∈ core_defined_names) := by
  refine ⟨by decide, by decide, by decide, by decide, by decide, ?_⟩
  intro h
  exact absurd (h "generate_qr_with_text" (by decide)) (by decide)

/-- Evaluation helper: `validate_size` succeeds inside the bounds. -/
theorem validate_size_ok (size : Int) (hlo : MIN_QR_SIZE ≤ size) (hhi : size ≤ MAX_QR_SIZE) :
    validate_size size = .ok () := by
  unfold validate_size
  rw [if_pos ⟨hlo, hhi⟩]

/-- Evaluation helper: with valid data and size, `generate_qr` returns the
RGBA square of the requested size. -/
theorem generate_qr_eval (codecImg : PILImage) (data : String) (size : Int)
    (hdata : validate_data data = .ok ()) (hsize : validate_size size = .ok ()) :
    generate_qr codecImg data size = .ok ⟨size, size, "RGBA"⟩ := by
  unfold generate_qr
  rw [hdata, hsize]
  rfl

/-- Claim C7: `calculate_position` lowercases the anchor first, so any
string whose lowercasing is one of the five valid anchors succeeds with the
coordinates of the lowercase name, and any string whose lowercasing is not
a valid anchor raises `ValueError` (`InvalidInput`). -/
theorem calculate_position_case_insensitive (s : String) (bg_w bg_h qr_size margin : Int) :
    (pyLower s = "center" →
      calculate_position bg_w bg_h qr_size s margin =
        .ok ((bg_w - qr_size).fdiv 2, (bg_h - qr_size).fdiv 2))
    ∧ (pyLower s = "top-left" →
      calculate_position bg_w bg_h qr_size s margin = .ok (margin, margin))
    ∧ (pyLower s = "top-right" →
      calculate_position bg_w bg_h qr_size s margin =
        .ok (bg_w - qr_size - margin, margin))
    ∧ (pyLower s = "bottom-left" →
      calculate_position bg_w bg_h qr_size s margin =
        .ok (margin, bg_h - qr_size - margin))
    ∧ (pyLower s = "bottom-right" →
      calculate_position bg_w bg_h qr_size s margin =
        .ok (bg_w - qr_size - margin, bg_h - qr_size - margin))
    ∧ (pyLower s ∉ VALID_POSITIONS →
      calculate_position bg_w bg_h qr_size s margin =
        .error (.valueError unsupportedPositionMsg)) := by
  refine ⟨?_, ?_, ?_, ?_, ?_, ?_⟩ <;> intro h
  · unfold calculate_position
    rw [h]
    rfl
  · unfold calculate_position
    rw [h]
    rfl
  · unfold calculate_position
    rw [h]
    rfl
  · unfold calculate_position
    rw [h]
    rfl
  · unfold calculate_position
    rw [h]
    rfl
  · simp only [VALID_POSITIONS, List.mem_cons, List.not_mem_nil, or_false, not_or] at h
    obtain ⟨h1, h2, h3, h4, h5⟩ := h
    unfold calculate_position
    rw [if_neg h1, if_neg h5, if_neg h4, if_neg h3, if_neg h2]

/-- Claim C7 witness: an uppercase variant of a valid anchor succeeds with
the lowercase coordinates, a mixed-case variant of another anchor succeeds,
and a string that lowercases to no valid anchor fails with `ValueError`. -/
theorem calculate_position_case_insensitive_witness :
    calculate_position 100 80 30 "CENTER" 5 = .ok (35, 25)
    ∧ calculate_position 100 80 30 "Bottom-Right" 5 = .ok (65, 45)
    ∧ calculate_position 100 80 30 "diagonal" 5 =
        .error (.valueError unsupportedPositionMsg) :=
  ⟨((calculate_position_case_insensitive "CENTER" 100 80 30 5).1 (by decide)).trans
      (by decide),
   ((calculate_position_case_insensitive "Bottom-Right" 100 80 30 5).2.2.2.2.1
      (by decide)).trans (by decide),
   (calculate_position_case_insensitive "diagonal" 100 80 30 5).2.2.2.2.2 (by decide)⟩

/-- Claim C8: for every codec output, every data string accepted by the
validator and every size in `[21, 4000]`, `generate_qr` returns an image of
exactly `size × size` pixels in RGBA mode (alpha channel present),
whatever the dimensions the codec chose internally. -/
theorem generate_qr_square_rgba (codecImg : PILImage) (data : String) (size : Int)
    (hdata : validate_data data = .ok ())
    (hlo : MIN_QR_SIZE ≤ size) (hhi : size ≤ MAX_QR_SIZE) :
    generate_qr codecImg data size = .ok ⟨size, size, "RGBA"⟩ :=
  generate_qr_eval codecImg data size hdata (validate_size_ok size hlo hhi)

/-- Claim C8 witness: a concrete codec image of unrelated dimensions and a
concrete request produce exactly the 500 by 500 RGBA square. -/
theorem generate_qr_square_rgba_witness :
    validate_data "https://x" = .ok ()
    ∧ MIN_QR_SIZE ≤ (500 : Int) ∧ (500 : Int) ≤ MAX_QR_SIZE
    ∧ generate_qr ⟨290, 290, "1"⟩ "https://x" 500 = .ok ⟨500, 500, "RGBA"⟩ :=
  ⟨by decide, by decide, by decide,
   generate_qr_square_rgba ⟨290, 290, "1"⟩ "https://x" 500 (by decide) (by decide) (by decide)⟩

/-- Claim C9: with an existing logo and otherwise valid inputs,
`generate_qr_with_logo` raises `ValueError` (`InvalidInput`) exactly when
`logo_scale` is outside the closed interval `[0.1, 0.4]`, and succeeds on
the whole interval, boundaries included. -/
theorem generate_qr_with_logo_scale_bounds (codecImg : PILImage) (data : String)
    (size : Int) (logo_scale : ℚ)
    (hdata : validate_data data = .ok ())
    (hlo : MIN_QR_SIZE ≤ size) (hhi : size ≤ MAX_QR_SIZE) :
    ((0.1 : ℚ) ≤ logo_scale ∧ logo_scale ≤ (0.4 : ℚ) →
      generate_qr_with_logo true codecImg data size logo_scale = .ok ⟨size, size, "RGBA"⟩)
    ∧ (¬((0.1 : ℚ) ≤ logo_scale ∧ logo_scale ≤ (0.4 : ℚ)) →
      generate_qr_with_logo true codecImg data size logo_scale =
        .error (.valueError logoScaleMsg)) := by
  constructor
  · intro hin
    unfold generate_qr_with_logo
    rw [if_neg (by simp), if_pos hin,
      generate_qr_eval codecImg data size hdata (validate_size_ok size hlo hhi)]
  · intro hout
    unfold generate_qr_with_logo
    rw [if_neg (by simp), if_neg hout]

/-- Claim C9 witness: at the concrete boundaries of the claim,
`logo_scale = 0.05` and `0.41` fail with `ValueError` while `0.1` and `0.4`
succeed, all with valid data and size. -/
theorem generate_qr_with_logo_scale_bounds_witness :
    generate_qr_with_logo true ⟨290, 290, "1"⟩ "https://x" 500 (0.05 : ℚ) =
      .error (.valueError logoScaleMsg)
    ∧ generate_qr_with_logo true ⟨290, 290, "1"⟩ "https://x" 500 (0.1 : ℚ) =
      .ok ⟨500, 500, "RGBA"⟩
    ∧ generate_qr_with_logo true ⟨290, 290, "1"⟩ "https://x" 500 (0.4 : ℚ) =
      .ok ⟨500, 500, "RGBA"⟩
    ∧ generate_qr_with_logo true ⟨290, 290, "1"⟩ "https://x" 500 (0.41 : ℚ) =
      .error (.valueError logoScaleMsg) :=
  ⟨(generate_qr_with_logo_scale_bounds ⟨290, 290, "1"⟩ "https://x" 500 (0.05 : ℚ)
      (by decide) (by decide) (by decide)).2 (by norm_num),
   (generate_qr_with_logo_scale_bounds ⟨290, 290, "1"⟩ "https://x" 500 (0.1 : ℚ)
      (by decide) (by decide) (by decide)).1 (by norm_num),
   (generate_qr_with_logo_scale_bounds ⟨290, 290, "1"⟩ "https://x" 500 (0.4 : ℚ)
      (by decide) (by decide) (by decide)).1 (by norm_num),
   (generate_qr_with_logo_scale_bounds ⟨290, 290, "1"⟩ "https://x" 500 (0.41 : ℚ)
      (by decide) (by decide) (by decide)).2 (by norm_num)⟩

/-- Evaluation helper: `pyInt` is the identity on integer-valued
rationals. -/
theorem pyInt_intCast (n : Int) : pyInt (n : ℚ) = n := by
  unfold pyInt
  split_ifs with h
  · exact Int.floor_intCast n
  · exact Int.ceil_intCast n

/-- Shape helper: whenever `generate_qr` succeeds, the image it returns is
the RGBA square of the requested size. -/
theorem generate_qr_ok_shape (c : PILImage) (d : String) (s : Int) (q : PILImage)
    (h : generate_qr c d s = .ok q) : q = ⟨s, s, "RGBA"⟩ := by
  unfold generate_qr at h
  cases hd : validate_data d with
  | error e => rw [hd] at h; cases h
  | ok u =>
    rw [hd] at h
    cases hs : validate_size s with
    | error e => rw [hs] at h; cases h
    | ok u2 =>
      rw [hs] at h
      exact (Except.ok.inj h).symm

/-- Claim C5: whenever the embed pipeline succeeds, the QR image pasted
onto the background has side `int(bg_width * scale)`; concretely, a
400 by 300 background with `scale = 0.25`, `position = bottom-right` and
`margin = 10` yields a 100 by 100 QR pasted at `(290, 190)`. -/
theorem embed_qr_scale_size (codecImg background : PILImage) (data : String)
    (scale : ℚ) (position : String) (margin : Int) :
    (∀ r, embed_qr codecImg background data scale position margin = .ok r →
      r.qrImg.width = pyInt ((background.width : ℚ) * scale)
      ∧ r.qrImg.height = pyInt ((background.width : ℚ) * scale))
    ∧ embed_qr codecImg ⟨400, 300, "RGB"⟩ "https://x" (0.25 : ℚ) "bottom-right" 10 =
      .ok ⟨⟨400, 300, "RGBA"⟩, ⟨100, 100, "RGBA"⟩, 290, 190⟩ := by
  constructor
  · intro r hr
    unfold embed_qr at hr
    split_ifs at hr with hs
    · cases hg : generate_qr codecImg data
          (pyInt (((background.convert "RGBA").width : ℚ) * scale)) with
      | error e => rw [hg] at hr; cases hr
      | ok q =>
        rw [hg] at hr
        cases hc : calculate_position (background.convert "RGBA").width
            (background.convert "RGBA").height
            (pyInt (((background.convert "RGBA").width : ℚ) * scale)) position margin with
        | error e => rw [hc] at hr; cases hr
        | ok xy =>
          rw [hc] at hr
          have hq := generate_qr_ok_shape codecImg data
            (pyInt (((background.convert "RGBA").width : ℚ) * scale)) q hg
          cases xy with
          | mk x y =>
            have hrq : r.qrImg = q := by rw [← Except.ok.inj hr]
            rw [hrq, hq]
            exact ⟨rfl, rfl⟩
  · unfold embed_qr
    rw [if_pos (by norm_num)]
    norm_num [PILImage.convert, pyInt]
    rfl

/-- Claim C5 witness: the theorem applied to the concrete bottom-right
scenario, its success hypothesis discharged by the concrete evaluation. -/
theorem embed_qr_scale_size_witness :
    (⟨⟨400, 300, "RGBA"⟩, ⟨100, 100, "RGBA"⟩, 290, 190⟩ : EmbedResult).qrImg.width =
      pyInt ((((⟨400, 300, "RGB"⟩ : PILImage).width : ℚ)) * (0.25 : ℚ))
    ∧ (⟨⟨400, 300, "RGBA"⟩, ⟨100, 100, "RGBA"⟩, 290, 190⟩ : EmbedResult).qrImg.height =
      pyInt ((((⟨400, 300, "RGB"⟩ : PILImage).width : ℚ)) * (0.25 : ℚ)) :=
  (embed_qr_scale_size ⟨1, 1, "1"⟩ ⟨400, 300, "RGB"⟩ "https://x" (0.25 : ℚ)
      "bottom-right" 10).1
    ⟨⟨400, 300, "RGBA"⟩, ⟨100, 100, "RGBA"⟩, 290, 190⟩
    (embed_qr_scale_size ⟨1, 1, "1"⟩ ⟨400, 300, "RGB"⟩ "https://x" (0.25 : ℚ)
      "bottom-right" 10).2

/-- Shape helper: a successful batch item is named from its source
filename by the archive naming rule. -/
theorem process_item_ok_name (codecImg : PILImage) (data : String) (scale : ℚ)
    (position : String) (margin : Int) (f entry : String × PILImage)
    (h : process_item codecImg data scale position margin f = .ok entry) :
    entry.1 = api_out_name f.1 := by
  unfold process_item at h
  split_ifs at h with hs
  cases hg : generate_qr codecImg data (pyInt (((f.2.convert "RGBA").width : ℚ) * scale)) with
  | error e => rw [hg] at h; cases h
  | ok q =>
    rw [hg] at h
    cases hc : calculate_position (f.2.convert "RGBA").width (f.2.convert "RGBA").height
        (pyInt (((f.2.convert "RGBA").width : ℚ) * scale)) position margin with
    | error e => rw [hc] at h; cases h
    | ok xy =>
      rw [hc] at h
      rw [← Except.ok.inj h]

/-- Claim C6: batch embedding is sequential, order-preserving and
all-or-nothing — when every item succeeds the archive entries are exactly
the per-item output names in input order, and when any single item fails
the whole batch fails and no partial archive is produced. -/
theorem batch_embed_all_or_nothing (codecImg : PILImage) (data : String) (scale : ℚ)
    (position : String) (margin : Int) (files : List (String × PILImage)) :
    ((∃ f ∈ files, isOk (process_item codecImg data scale position margin f) = false) →
      isOk (batch_embed_qr codecImg data scale position margin files) = false)
    ∧ (∀ out, batch_embed_qr codecImg data scale position margin files = .ok out →
      out.map Prod.fst = files.map fun f => api_out_name f.1) := by
  induction files with
  | nil =>
    constructor
    · rintro ⟨f, hf, -⟩
      cases hf
    · intro out h
      rw [← Except.ok.inj h]
      rfl
  | cons f fs ih =>
    constructor
    · rintro ⟨g, hg, hgbad⟩
      unfold batch_embed_qr
      cases hp : process_item codecImg data scale position margin f with
      | error e => rfl
      | ok entry =>
        rcases List.mem_cons.mp hg with rfl | hg2
        · rw [hp] at hgbad
          simp [isOk] at hgbad
        · have hb := ih.1 ⟨g, hg2, hgbad⟩
          cases hbat : batch_embed_qr codecImg data scale position margin fs with
          | error e => rfl
          | ok rest =>
            rw [hbat] at hb
            simp [isOk] at hb
    · intro out h
      unfold batch_embed_qr at h
      cases hp : process_item codecImg data scale position margin f with
      | error e => rw [hp] at h; cases h
      | ok entry =>
        rw [hp] at h
        cases hbat : batch_embed_qr codecImg data scale position margin fs with
        | error e => rw [hbat] at h; cases h
        | ok rest =>
          rw [hbat] at h
          rw [← Except.ok.inj h]
          simp only [List.map_cons]
          rw [process_item_ok_name codecImg data scale position margin f entry hp,
            ih.2 rest hbat]

/-- Claim C6 witness: the theorem applied to a concrete two-item batch
whose second item fails (its background is too small for a valid QR size),
and to a concrete one-item batch that succeeds with the expected entry
name. -/
theorem batch_embed_all_or_nothing_witness :
    isOk (batch_embed_qr ⟨1, 1, "1"⟩ "https://x" 1 "center" 20
      [("photo.jpg", ⟨400, 300, "RGB"⟩), ("tiny.png", ⟨10, 10, "RGB"⟩)]) = false
    ∧ [("photo_qr.png", (⟨400, 300, "RGBA"⟩ : PILImage))].map Prod.fst =
      [("photo.jpg", (⟨400, 300, "RGB"⟩ : PILImage))].map (fun f => api_out_name f.1) := by
  constructor
  · apply (batch_embed_all_or_nothing ⟨1, 1, "1"⟩ "https://x" 1 "center" 20
      [("photo.jpg", ⟨400, 300, "RGB"⟩), ("tiny.png", ⟨10, 10, "RGB"⟩)]).1
    refine ⟨("tiny.png", ⟨10, 10, "RGB"⟩), by decide, ?_⟩
    unfold process_item
    rw [if_pos (by norm_num)]
    have h10 : pyInt (((((⟨10, 10, "RGB"⟩ : PILImage)).convert "RGBA").width : ℚ) * 1) = 10 := by
      rw [mul_one]
      exact pyInt_intCast _
    rw [h10]
    rfl
  · apply (batch_embed_all_or_nothing ⟨1, 1, "1"⟩ "https://x" 1 "center" 20
      [("photo.jpg", ⟨400, 300, "RGB"⟩)]).2
    have hp : process_item ⟨1, 1, "1"⟩ "https://x" 1 "center" 20
        ("photo.jpg", ⟨400, 300, "RGB"⟩) = .ok ("photo_qr.png", ⟨400, 300, "RGBA"⟩) := by
      unfold process_item
      rw [if_pos (by norm_num)]
      have h400 : pyInt (((((⟨400, 300, "RGB"⟩ : PILImage)).convert "RGBA").width : ℚ) * 1)
          = 400 := by
        rw [mul_one]
        exact pyInt_intCast _
      rw [h400]
      rfl
    unfold batch_embed_qr
    rw [hp]
    rfl

end QRBuilder
